import Mathlib

/-!
Shallow embedding of the quiz-bot engine in `src/bot.py`: the session state
machine (`start_quiz`, `handle_answer`), the referral ledger and unlock
gating (`create_user`, the create-or-get step of `start`), the ad rotation
scheduler (`get_ad_to_show`) and the question delivery pipeline
(`send_question`), together with the menu filter of `show_main_menu` and
the `home_exit` branch of `callback_router`.

Firestore documents are modelled as association lists keyed by strings;
Firestore `update` with `Increment`, dotted-field writes and merge-`set`
fallbacks become explicit functional updates on those lists.  Message
sending, Markdown rendering and the Telegram transport are pure I/O and are
not part of the model; the delivery pipeline instead returns an explicit
outcome value describing what would be sent.
-/

/-- First-match lookup in an association list (Python `dict.get(k)` /
Firestore document read of a map field). -/
def lookup? {α : Type} : List (String × α) → String → Option α
  | [], _ => none
  | p :: ps, k => if p.1 = k then some p.2 else lookup? ps k

/-- Lookup with a default (Python `dict.get(k, d)`). -/
def lookupD {α : Type} (m : List (String × α)) (k : String) (d : α) : α :=
  (lookup? m k).getD d

/-- Replace the first binding of a key, appending it if absent
(Python `dict[k] = v` / a Firestore dotted-field write). -/
def setEntry {α : Type} : List (String × α) → String → α → List (String × α)
  | [], k, v => [(k, v)]
  | p :: ps, k, v => if p.1 = k then (k, v) :: ps else p :: setEntry ps k v

/-- The `currentSession` document embedded in a user record
(bot.py `start_quiz`, lines 308-315). -/
structure Session where
  department_id : String
  current_question_index : Nat
  correct_in_session : Nat
  attempted_in_session : Nat
  sessionActive : Bool
  ad_break_counter : Nat
deriving DecidableEq

/-- A `users/<id>` document (bot.py `create_user`, lines 88-95).  The
profile fields (`first_name`, `last_name`, `username`, `createdAt`) are
presentation data never read by the engine and are omitted. -/
structure User where
  totalAttempts : Nat
  totalCorrect : Nat
  referral_counts : List (String × Nat)
  unlocked_departments : List (String × Bool)
  currentSession : Option Session
deriving DecidableEq

/-- A question document under `departments/<dept>/questions`
(bot.py lines 396-427, 476-484). -/
structure Question where
  question_number : Nat
  question_text : String
  options : List (String × String)
  answer : String
  explanation : String
deriving DecidableEq

/-- An `ads` document (bot.py admin ad upload, lines 819-877; read in
`get_ad_to_show`).  `adType` is the stored `type` field; the media
reference / text payload is collapsed into one string since the engine
never inspects it. -/
structure Ad where
  adType : String
  payload : String
  caption : String
  order_index : Nat
  isActive : Bool
deriving DecidableEq

/-- A `departments/<id>` document (bot.py `show_main_menu`, lines 281-289;
admin upload, lines 769-773). -/
structure Department where
  displayName : String
  isActive : Bool
  totalQuestions : Nat
deriving DecidableEq

/-- A `referrals` document (bot.py lines 101-107).  The timestamp is
never read back and is omitted. -/
structure Referral where
  inviter_id : String
  invited_id : String
  dept_id : String
deriving DecidableEq

/-- The slice of the Firestore state the referral ledger touches:
the `users` collection and the append-only `referrals` collection. -/
structure Store where
  users : List (String × User)
  referrals : List Referral
deriving DecidableEq

/-- The fresh user document written by `create_user` (bot.py lines 88-96). -/
def newUserData : User :=
  { totalAttempts := 0
    totalCorrect := 0
    referral_counts := []
    unlocked_departments := []
    currentSession := none }

/-- The inviter's per-department referral count as read in
bot.py lines 121-122: `referral_counts.get(ref_dept, 0)`, with a missing
inviter document read as the empty dict. -/
def usersCount (users : List (String × User)) (r d : String) : Nat :=
  match lookup? users r with
  | some inv => lookupD inv.referral_counts d 0
  | none => 0

/-- The inviter's per-department referral count in a store. -/
def referralCount (st : Store) (r d : String) : Nat :=
  usersCount st.users r d

/-- bot.py lines 109-118: increment the inviter's count for `d` via a
dotted-field `Increment(1)`, falling back to a merge-`set` that creates the
document with `referral_counts = {d: 1}` when the inviter document does not
exist. -/
def incrementInviterCount (users : List (String × User)) (r d : String) :
    List (String × User) :=
  match lookup? users r with
  | some inv =>
      setEntry users r
        { inv with referral_counts :=
            setEntry inv.referral_counts d (lookupD inv.referral_counts d 0 + 1) }
  | none =>
      setEntry users r { newUserData with referral_counts := [(d, 1)] }

/-- bot.py lines 126-129: set `unlocked_departments[d] = True` on the
inviter, falling back to a merge-`set` when the document is missing. -/
def setInviterUnlocked (users : List (String × User)) (r d : String) :
    List (String × User) :=
  match lookup? users r with
  | some inv =>
      setEntry users r
        { inv with unlocked_departments := setEntry inv.unlocked_departments d true }
  | none =>
      setEntry users r { newUserData with unlocked_departments := [(d, true)] }

/-- bot.py `create_user` (lines 81-134).  Writes the fresh user document,
then, when a referrer and department are present (Python truthiness: a
`None` or empty-string referrer or department is falsy) and the referral is
not a self-referral, appends a `Referral` record, increments the inviter's
per-department count, re-reads it and — whenever the count has reached 2 —
sets the unlock flag and reports `dept_unlocked = true`.  Returns
`(store, created, referral_recorded, dept_unlocked)`. -/
def create_user (st : Store) (user_id : String)
    (referrer_id ref_dept : Option String) : Store × Bool × Bool × Bool :=
  let users1 := setEntry st.users user_id newUserData
  match referrer_id, ref_dept with
  | some r, some d =>
      if r ≠ "" ∧ r ≠ user_id ∧ d ≠ "" then
        let refs2 := st.referrals ++
          [{ inviter_id := r, invited_id := user_id, dept_id := d }]
        let users2 := incrementInviterCount users1 r d
        let dept_count := usersCount users2 r d
        if 2 ≤ dept_count then
          ({ users := setInviterUnlocked users2 r d, referrals := refs2 }, true, true, true)
        else
          ({ users := users2, referrals := refs2 }, true, true, false)
      else ({ users := users1, referrals := st.referrals }, true, false, false)
  | _, _ => ({ users := users1, referrals := st.referrals }, true, false, false)

/-- The create-or-get step of the `/start` handler (bot.py lines 195-202):
`create_user` runs — and hence any referral is recorded — only when no user
document exists for the invited user.  Returns
`(store, referral_recorded, dept_unlocked)`. -/
def start_create_step (st : Store) (user_id : String)
    (referrer ref_dept : Option String) : Store × Bool × Bool :=
  match lookup? st.users user_id with
  | some _ => (st, false, false)
  | none =>
      let r := create_user st user_id referrer ref_dept
      (r.1, r.2.2.1, r.2.2.2)

/-- The active ads, ordered ascending by `order_index` — the result of the
Firestore query `ads.where(isActive == True).order_by(order_index)`
(bot.py line 138), realised as a stable insertion sort over the filtered
collection. -/
def insertByOrder (a : Ad) : List Ad → List Ad
  | [] => [a]
  | b :: bs => if a.order_index ≤ b.order_index then a :: b :: bs
               else b :: insertByOrder a bs

/-- Stable sort of ads by `order_index`. -/
def sortAds : List Ad → List Ad
  | [] => []
  | a :: as => insertByOrder a (sortAds as)

/-- The list `ads` built in bot.py lines 138-139. -/
def activeAdsSorted (ads : List Ad) : List Ad :=
  sortAds (ads.filter (fun a => a.isActive))

/-- bot.py `get_ad_to_show` (lines 136-152): circular selection of the next
ad by `counter % len(ads)`; `None` when no active ad exists. -/
def get_ad_to_show (ads : List Ad) (current_index : Nat) : Option Ad :=
  let acts := activeAdsSorted ads
  if acts.isEmpty then none
  else acts[current_index % acts.length]?

/-- The fresh session written by `start_quiz` (bot.py lines 308-315). -/
def freshSession (dept_id : String) : Session :=
  { department_id := dept_id
    current_question_index := 0
    correct_in_session := 0
    attempted_in_session := 0
    sessionActive := true
    ad_break_counter := 0 }

/-- bot.py `start_quiz` (lines 304-319): unconditionally overwrite the
user's `currentSession` with a fresh active session for `dept_id` (the
function performs no department validation). -/
def start_quiz (u : User) (dept_id : String) : User :=
  { u with currentSession := some (freshSession dept_id) }

/-- The department keyboard built by `show_main_menu` (bot.py lines
281-289): only active departments with at least one question are listed. -/
def show_main_menu_depts (deps : List (String × Department)) : List String :=
  (deps.filter (fun p => p.2.isActive && decide (0 < p.2.totalQuestions))).map (fun p => p.1)

/-- The question fetch of bot.py lines 396-404 and 478-482: first document
in `departments/<dept>/questions` with `question_number == n`. -/
def fetchQuestion (qdb : List (String × List Question)) (dept : String)
    (n : Nat) : Option Question :=
  (lookupD qdb dept []).find? (fun q => q.question_number == n)

/-- The deep-link parameter `ref_<inviter>_dept_<dept>` built at
bot.py line 337. -/
def refLinkParam (user_id dept_id : String) : String :=
  "ref_" ++ user_id ++ "_dept_" ++ dept_id

/-- What the delivery pipeline emits for one call of `send_question`. -/
inductive DeliveryOutcome where
  | locked (refParam : String)
  | completed
  | adThenQuestion (ad : Ad) (q : Question)
  | question (q : Question)
  | notFound
deriving DecidableEq

/-- The ad-break step of `send_question` (bot.py lines 361-390): at an ad
break (`index > 0` and `index % 5 == 0`) with an ad available, increment
and persist `ad_break_counter` and deliver the ad; otherwise leave the
session unchanged and deliver nothing. -/
def adStep (ads : List Ad) (s : Session) : Session × Option Ad :=
  if 0 < s.current_question_index ∧ s.current_question_index % 5 = 0 then
    match get_ad_to_show ads s.ad_break_counter with
    | some ad => ({ s with ad_break_counter := s.ad_break_counter + 1 }, some ad)
    | none => (s, none)
  else (s, none)

/-- The tail of `send_question` after the lock and completion checks
(bot.py lines 361-451): run the ad step, fetch the question numbered
`index + 1`; when it is missing the session is NOT modified — the code
only sends "Error: Question not found. Ending session." and shows the
menu (lines 406-410), it never writes `sessionActive = False`. -/
def send_question_step (ads : List Ad) (qdb : List (String × List Question))
    (s : Session) : Session × DeliveryOutcome :=
  match fetchQuestion qdb s.department_id (s.current_question_index + 1) with
  | none => ((adStep ads s).1, .notFound)
  | some q =>
      match (adStep ads s).2 with
      | some ad => ((adStep ads s).1, .adThenQuestion ad q)
      | none => ((adStep ads s).1, .question q)

/-- bot.py `send_question` (lines 321-451), as a pure function of the
session, the user's unlock map, the ads and the question bank.  The checks
run in the source's order: referral lock at exactly index 25, completion at
index ≥ 100, then the ad step and the question fetch.  The `locked`
outcome carries the referral-link parameter built at line 337 (the session
summary is message rendering only). -/
def send_question (user_id : String) (unl : List (String × Bool))
    (ads : List Ad) (qdb : List (String × List Question)) (s : Session) :
    Session × DeliveryOutcome :=
  if s.current_question_index = 25 ∧ lookupD unl s.department_id false = false then
    (s, .locked (refLinkParam user_id s.department_id))
  else if 100 ≤ s.current_question_index then
    ({ s with sessionActive := false }, .completed)
  else send_question_step ads qdb s

/-- Whether an outcome serves a question (possibly after an ad). -/
def isQuestionOutcome : DeliveryOutcome → Bool
  | .adThenQuestion _ _ => true
  | .question _ => true
  | _ => false

/-- Whether an outcome is the referral lock. -/
def isLockedOutcome : DeliveryOutcome → Bool
  | .locked _ => true
  | _ => false

/-- Result of `handle_answer`. -/
inductive AnswerResult where
  | sessionExpired
  | staleAnswer
  | noQuestionData
  | accepted (isCorrect : Bool)
deriving DecidableEq

/-- bot.py `handle_answer` (lines 453-506): reject with `sessionExpired`
when there is no active session; reject with `staleAnswer` (no state
change) when the claimed question number is not `current_question_index + 1`;
otherwise re-fetch the question and grade by EXACT string comparison
`selected_opt == q_data['answer']` (line 484 — no case normalisation), then
increment `totalAttempts`, `attempted_in_session`, `current_question_index`
and, exactly when the comparison holds, `totalCorrect` and
`correct_in_session`.  When the question fetch comes back empty the Python
code raises on `q_data['answer']` before any write, leaving the state
unchanged; this is the `noQuestionData` result. -/
def handle_answer (u : User) (qdb : List (String × List Question))
    (selected_opt : String) (q_num : Nat) : User × AnswerResult :=
  match u.currentSession with
  | none => (u, .sessionExpired)
  | some s =>
      if s.sessionActive = false then (u, .sessionExpired)
      else if s.current_question_index + 1 ≠ q_num then (u, .staleAnswer)
      else
        match fetchQuestion qdb s.department_id q_num with
        | none => (u, .noQuestionData)
        | some q =>
            ({ u with
                totalAttempts := u.totalAttempts + 1
                totalCorrect :=
                  if selected_opt = q.answer then u.totalCorrect + 1 else u.totalCorrect
                currentSession := some
                  { s with
                      attempted_in_session := s.attempted_in_session + 1
                      current_question_index := s.current_question_index + 1
                      correct_in_session :=
                        if selected_opt = q.answer then s.correct_in_session + 1
                        else s.correct_in_session } },
             .accepted (decide (selected_opt = q.answer)))

/-- The `home_exit` branch of `callback_router` (bot.py lines 633-637):
read the user, send a "Paused Session" summary when a session exists, show
the main menu.  It performs NO write — in particular it never touches
`sessionActive`.  Returns the (unchanged) user and whether a summary was
sent. -/
def home_exit (u : User) : User × Bool :=
  match u.currentSession with
  | some _ => (u, true)
  | none => (u, false)

/-- Lower-case every character of a string. -/
def lowerStr (s : String) : String :=
  ⟨s.data.map Char.toLower⟩

/-- Case-normalised comparison of a submitted choice with a stored answer
key.  Modelled from the spec: "compare `choice` to the stored answer key
(case-normalized)" — stated for refinement comparison with the exact
comparison the source performs at bot.py line 484. -/
def caseNormEq (x y : String) : Bool :=
  lowerStr x == lowerStr y

/-! Concrete fixtures used by witnesses and counterexamples. -/

/-- A four-choice option map. -/
def sampleOptions : List (String × String) :=
  [("a", "x"), ("b", "y"), ("c", "z"), ("d", "w")]

/-- Question 1 with the answer key stored in lower case. -/
def qLower : Question :=
  { question_number := 1, question_text := "q", options := sampleOptions
    answer := "a", explanation := "e" }

/-- Question 1 with the answer key stored in UPPER case. -/
def qUpperKey : Question :=
  { question_number := 1, question_text := "q", options := sampleOptions
    answer := "A", explanation := "e" }

/-- Question 6, for the ad-break position. -/
def qSix : Question :=
  { question_number := 6, question_text := "q6", options := sampleOptions
    answer := "a", explanation := "e" }

/-- Department "d" holding only question 1 (lower-case key). -/
def qdbLower : List (String × List Question) := [("d", [qLower])]

/-- Department "d" holding only question 1 (upper-case key). -/
def qdbUpperKey : List (String × List Question) := [("d", [qUpperKey])]

/-- Department "d" holding only question 6. -/
def qdbSix : List (String × List Question) := [("d", [qSix])]

/-- A user with a fresh active session in department "d". -/
def userWithFreshSession : User :=
  { newUserData with currentSession := some (freshSession "d") }

/-- A session stopped at the preview boundary, index 25. -/
def sessionAt25 : Session :=
  { department_id := "d", current_question_index := 25, correct_in_session := 10
    attempted_in_session := 25, sessionActive := true, ad_break_counter := 2 }

/-- A session at index 3 (mid-preview). -/
def sessionAt3 : Session :=
  { department_id := "d", current_question_index := 3, correct_in_session := 1
    attempted_in_session := 3, sessionActive := true, ad_break_counter := 0 }

/-- A session at an ad-break position, index 5. -/
def sessionAt5 : Session :=
  { department_id := "d", current_question_index := 5, correct_in_session := 2
    attempted_in_session := 5, sessionActive := true, ad_break_counter := 0 }

/-- Two active ads and one inactive one. -/
def adOne : Ad :=
  { adType := "text", payload := "p1", caption := "", order_index := 5, isActive := true }

/-- Second active ad, earlier rotation index. -/
def adTwo : Ad :=
  { adType := "text", payload := "p2", caption := "", order_index := 3, isActive := true }

/-- An inactive ad. -/
def adOff : Ad :=
  { adType := "photo", payload := "p3", caption := "", order_index := 7, isActive := false }

/-- Sample ads collection with two active entries. -/
def sampleAds : List Ad := [adOne, adTwo, adOff]

/-- An inviter that already unlocked department "d" through 2 referrals. -/
def unlockedInviter : User :=
  { newUserData with
      referral_counts := [("d", 2)]
      unlocked_departments := [("d", true)] }

/-- Store holding only that already-unlocked inviter, under id "i". -/
def unlockedInviterStore : Store :=
  { users := [("i", unlockedInviter)], referrals := [] }

/-- Store holding a single plain user record under id "i0". -/
def existingUserStore : Store :=
  { users := [("i0", newUserData)], referrals := [] }

/-- The empty store. -/
def emptyStore : Store := { users := [], referrals := [] }

/-- A single inactive, empty department list for the menu filter. -/
def inactiveDeps : List (String × Department) :=
  [("d", { displayName := "Dept D", isActive := false, totalQuestions := 0 })]

/-- A single active department with questions, for the menu filter. -/
def activeDeps : List (String × Department) :=
  [("e", { displayName := "Dept E", isActive := true, totalQuestions := 100 })]

/-! Association-list lemmas. -/

/-- Looking up the key just set returns the new value. -/
theorem lookup?_setEntry_self {α : Type} (m : List (String × α)) (k : String) (v : α) :
    lookup? (setEntry m k v) k = some v := by
  induction m with
  | nil => simp [setEntry, lookup?]
  | cons p ps ih =>
    by_cases h : p.1 = k
    · simp [setEntry, h, lookup?]
    · simp [setEntry, h, lookup?, ih]

/-- Setting one key does not change the binding of another. -/
theorem lookup?_setEntry_ne {α : Type} (m : List (String × α)) (k k' : String) (v : α)
    (h : k' ≠ k) : lookup? (setEntry m k v) k' = lookup? m k' := by
  induction m with
  | nil => simp [setEntry, lookup?, Ne.symm h]
  | cons p ps ih =>
    by_cases hp : p.1 = k
    · have hne : p.1 ≠ k' := by rw [hp]; exact Ne.symm h
      simp [setEntry, hp, lookup?, Ne.symm h, hne]
    · simp [setEntry, hp, lookup?, ih]

/-- `lookupD` after setting the same key. -/
theorem lookupD_setEntry_self {α : Type} (m : List (String × α)) (k : String) (v d : α) :
    lookupD (setEntry m k v) k d = v := by
  simp [lookupD, lookup?_setEntry_self]

/-- A per-department count is unchanged by writing a different user's record. -/
theorem usersCount_setEntry_ne (users : List (String × User)) (k : String) (v : User)
    (r d : String) (h : r ≠ k) :
    usersCount (setEntry users k v) r d = usersCount users r d := by
  unfold usersCount
  rw [lookup?_setEntry_ne _ _ _ _ h]

/-- The increment step adds exactly one to the inviter's count for `d`,
whether or not the inviter document already exists. -/
theorem usersCount_increment (users : List (String × User)) (r d : String) :
    usersCount (incrementInviterCount users r d) r d = usersCount users r d + 1 := by
  cases h : lookup? users r with
  | some inv =>
      simp [incrementInviterCount, usersCount, h, lookup?_setEntry_self, lookupD_setEntry_self]
  | none =>
      simp [incrementInviterCount, usersCount, h, lookup?_setEntry_self, lookupD, lookup?,
        newUserData]

/-- Setting the unlock flag does not change the referral count. -/
theorem usersCount_setInviterUnlocked (users : List (String × User)) (r d : String) :
    usersCount (setInviterUnlocked users r d) r d = usersCount users r d := by
  cases h : lookup? users r with
  | some inv =>
      simp [setInviterUnlocked, usersCount, h, lookup?_setEntry_self]
  | none =>
      simp [setInviterUnlocked, usersCount, h, lookup?_setEntry_self, lookupD, lookup?,
        newUserData]

/-! Lemmas about `create_user`. -/

/-- On a well-formed, non-self referral, `create_user` reports
`dept_unlocked` exactly when the inviter's post-increment count for the
department has reached the threshold 2 — it does NOT consult the existing
`unlocked_departments` flag. -/
theorem create_user_signal (st : Store) (uid r d : String)
    (h1 : r ≠ "") (h2 : r ≠ uid) (h3 : d ≠ "") :
    (create_user st uid (some r) (some d)).2.2.2
      = decide (2 ≤ referralCount st r d + 1) := by
  have hcond : r ≠ "" ∧ r ≠ uid ∧ d ≠ "" := ⟨h1, h2, h3⟩
  have hkey : usersCount (incrementInviterCount (setEntry st.users uid newUserData) r d) r d
      = referralCount st r d + 1 := by
    rw [usersCount_increment, usersCount_setEntry_ne _ _ _ _ _ h2]
    rfl
  simp only [create_user, if_pos hcond]
  rw [hkey]
  by_cases hth : 2 ≤ referralCount st r d + 1
  · simp [hth]
  · simp [hth]

/-- On a well-formed, non-self referral, `create_user` always reports
`referral_recorded = true`. -/
theorem create_user_recorded (st : Store) (uid r d : String)
    (h1 : r ≠ "") (h2 : r ≠ uid) (h3 : d ≠ "") :
    (create_user st uid (some r) (some d)).2.2.1 = true := by
  have hcond : r ≠ "" ∧ r ≠ uid ∧ d ≠ "" := ⟨h1, h2, h3⟩
  simp only [create_user, if_pos hcond]
  split <;> rfl

/-- On a well-formed, non-self referral, `create_user` appends exactly one
`Referral` record. -/
theorem create_user_referrals (st : Store) (uid r d : String)
    (h1 : r ≠ "") (h2 : r ≠ uid) (h3 : d ≠ "") :
    (create_user st uid (some r) (some d)).1.referrals
      = st.referrals ++ [{ inviter_id := r, invited_id := uid, dept_id := d }] := by
  have hcond : r ≠ "" ∧ r ≠ uid ∧ d ≠ "" := ⟨h1, h2, h3⟩
  simp only [create_user, if_pos hcond]
  split <;> rfl

/-- On a well-formed, non-self referral, the inviter's count for the
department goes up by exactly one. -/
theorem create_user_inviter_count (st : Store) (uid r d : String)
    (h1 : r ≠ "") (h2 : r ≠ uid) (h3 : d ≠ "") :
    referralCount (create_user st uid (some r) (some d)).1 r d
      = referralCount st r d + 1 := by
  have hcond : r ≠ "" ∧ r ≠ uid ∧ d ≠ "" := ⟨h1, h2, h3⟩
  have hkey : usersCount (incrementInviterCount (setEntry st.users uid newUserData) r d) r d
      = referralCount st r d + 1 := by
    rw [usersCount_increment, usersCount_setEntry_ne _ _ _ _ _ h2]
    rfl
  simp only [create_user, if_pos hcond, referralCount]
  split
  · rw [usersCount_setInviterUnlocked, hkey]; rfl
  · rw [hkey]; rfl

/-! Lemmas about `handle_answer`. -/

/-- A submission whose claimed question number does not match
`current_question_index + 1` is rejected with `staleAnswer` and the user
record — every counter and the session — is returned unchanged. -/
theorem handle_answer_stale (u : User) (qdb : List (String × List Question))
    (sel : String) (n : Nat) (s : Session)
    (hs : u.currentSession = some s) (ha : s.sessionActive = true)
    (hne : s.current_question_index + 1 ≠ n) :
    handle_answer u qdb sel n = (u, AnswerResult.staleAnswer) := by
  simp [handle_answer, hs, ha, hne]

/-- The accepted-answer equation: with an active session, a matching
claimed number and the question present, `handle_answer` increments
`totalAttempts`, `attempted_in_session` and `current_question_index`, and
increments the correct counters exactly when the submitted letter equals
the stored key by EXACT string comparison. -/
theorem handle_answer_accepted (u : User) (qdb : List (String × List Question))
    (sel : String) (n : Nat) (s : Session) (q : Question)
    (hs : u.currentSession = some s) (ha : s.sessionActive = true)
    (hn : s.current_question_index + 1 = n)
    (hq : fetchQuestion qdb s.department_id n = some q) :
    handle_answer u qdb sel n =
      ({ u with
          totalAttempts := u.totalAttempts + 1
          totalCorrect := if sel = q.answer then u.totalCorrect + 1 else u.totalCorrect
          currentSession := some
            { s with
                attempted_in_session := s.attempted_in_session + 1
                current_question_index := s.current_question_index + 1
                correct_in_session :=
                  if sel = q.answer then s.correct_in_session + 1
                  else s.correct_in_session } },
       AnswerResult.accepted (decide (sel = q.answer))) := by
  simp [handle_answer, hs, ha, hn, hq]

/-! Lemmas about the delivery pipeline. -/

/-- With no active ads the ad step is a no-op. -/
theorem adStep_no_ads (ads : List Ad) (s : Session)
    (h : activeAdsSorted ads = []) : adStep ads s = (s, none) := by
  have hga : get_ad_to_show ads s.ad_break_counter = none := by
    simp [get_ad_to_show, h]
  by_cases hc : 0 < s.current_question_index ∧ s.current_question_index % 5 = 0
  · simp [adStep, hc, hga]
  · simp [adStep, hc]

/-- The tail of the pipeline never emits `locked`. -/
theorem send_question_step_not_locked (ads : List Ad)
    (qdb : List (String × List Question)) (s : Session) :
    isLockedOutcome (send_question_step ads qdb s).2 = false := by
  rcases hf : fetchQuestion qdb s.department_id (s.current_question_index + 1) with _ | q
  · simp [send_question_step, hf, isLockedOutcome]
  · rcases ha : (adStep ads s).2 with _ | ad
    · simp [send_question_step, hf, ha, isLockedOutcome]
    · simp [send_question_step, hf, ha, isLockedOutcome]

/-- When the question numbered `index + 1` exists, the tail of the
pipeline serves it (directly or after an ad). -/
theorem send_question_step_question (ads : List Ad)
    (qdb : List (String × List Question)) (s : Session) (q : Question)
    (hq : fetchQuestion qdb s.department_id (s.current_question_index + 1) = some q) :
    isQuestionOutcome (send_question_step ads qdb s).2 = true := by
  rcases ha : (adStep ads s).2 with _ | ad
  · simp [send_question_step, hq, ha, isQuestionOutcome]
  · simp [send_question_step, hq, ha, isQuestionOutcome]

/-- When the lock gate does not fire, `send_question` reduces to the
completion check followed by the pipeline tail. -/
theorem send_question_unlockedEq (uid : String) (unl : List (String × Bool))
    (ads : List Ad) (qdb : List (String × List Question)) (s : Session)
    (h : ¬ (s.current_question_index = 25 ∧ lookupD unl s.department_id false = false)) :
    send_question uid unl ads qdb s =
      if 100 ≤ s.current_question_index then
        ({ s with sessionActive := false }, DeliveryOutcome.completed)
      else send_question_step ads qdb s := by
  simp [send_question, h]

/-! Claim theorems. -/

/-- Claim C1, counterexample: an inviter who already holds
`unlocked_departments["d"] = true` (having reached `referral_counts["d"] = 2`)
receives the "newly unlocked" signal AGAIN when a third distinct new user
joins through the referral link — `create_user` never consults the existing
unlock flag before signalling, so the signal is not single-shot. -/
theorem c1_counterexample :
    lookupD unlockedInviter.unlocked_departments "d" false = true
    ∧ 2 ≤ referralCount unlockedInviterStore "i" "d"
    ∧ (create_user unlockedInviterStore "u3" (some "i") (some "d")).2.2.2 = true := by
  decide

/-- Claim C1, amended: on every recorded (well-formed, non-self) referral,
`create_user` returns the "newly unlocked" signal exactly when the
inviter's post-increment `referral_counts[department]` has reached 2 — so
the signal does fire only once the count reaches 2, but it fires on EVERY
such referral, not at most once per (user, department) pair. -/
theorem c1_unlock_signal_threshold (st : Store) (uid r d : String)
    (h1 : r ≠ "") (h2 : r ≠ uid) (h3 : d ≠ "") :
    (create_user st uid (some r) (some d)).2.2.2
      = decide (2 ≤ referralCount st r d + 1) :=
  create_user_signal st uid r d h1 h2 h3

/-- Claim C1, witness for the amended theorem at a concrete input. -/
theorem c1_unlock_signal_threshold_witness :
    ((create_user emptyStore "u1" (some "i") (some "d")).2.2.2
        = decide (2 ≤ referralCount emptyStore "i" "d" + 1))
    ∧ (create_user emptyStore "u1" (some "i") (some "d")).2.2.2 = false :=
  ⟨c1_unlock_signal_threshold emptyStore "u1" "i" "d" (by decide) (by decide) (by decide),
   by decide⟩

/-- Claim C2: with an active session, a submission whose claimed question
number differs from `current_question_index + 1` is rejected with
`staleAnswer` and the whole user record is returned unchanged — in
particular `attempted_in_session`, `correct_in_session`,
`current_question_index`, `totalAttempts` and `totalCorrect`. -/
theorem c2_stale_answer_rejected_no_state_change (u : User)
    (qdb : List (String × List Question)) (sel : String) (n : Nat) (s : Session)
    (hs : u.currentSession = some s) (ha : s.sessionActive = true)
    (hne : s.current_question_index + 1 ≠ n) :
    handle_answer u qdb sel n = (u, AnswerResult.staleAnswer) :=
  handle_answer_stale u qdb sel n s hs ha hne

/-- Claim C2, witness at a concrete input. -/
theorem c2_stale_answer_witness :
    handle_answer userWithFreshSession qdbLower "a" 2
      = (userWithFreshSession, AnswerResult.staleAnswer) :=
  c2_stale_answer_rejected_no_state_change userWithFreshSession qdbLower "a" 2
    (freshSession "d") rfl rfl (by decide)

/-- Claim C3: the invariant `current_question_index = attempted_in_session`
holds in the freshly created session (both 0) and is preserved by every
accepted answer: the accepted transition increments both fields by exactly
one in the same update. -/
theorem c3_index_attempt_invariant (d : String) (u : User)
    (qdb : List (String × List Question)) (sel : String) (n : Nat)
    (s : Session) (q : Question)
    (hs : u.currentSession = some s) (ha : s.sessionActive = true)
    (hn : s.current_question_index + 1 = n)
    (hq : fetchQuestion qdb s.department_id n = some q) :
    ((freshSession d).current_question_index = 0
      ∧ (freshSession d).attempted_in_session = 0)
    ∧ ∃ s', (handle_answer u qdb sel n).1.currentSession = some s'
        ∧ s'.current_question_index = s.current_question_index + 1
        ∧ s'.attempted_in_session = s.attempted_in_session + 1
        ∧ (s.current_question_index = s.attempted_in_session →
            s'.current_question_index = s'.attempted_in_session) := by
  refine ⟨⟨rfl, rfl⟩, ?_⟩
  rw [handle_answer_accepted u qdb sel n s q hs ha hn hq]
  exact ⟨_, rfl, rfl, rfl, fun h => by simp [h]⟩

/-- Claim C3, witness at a concrete input. -/
theorem c3_index_attempt_invariant_witness :
    ((freshSession "d").current_question_index = 0
      ∧ (freshSession "d").attempted_in_session = 0)
    ∧ ∃ s', (handle_answer userWithFreshSession qdbLower "a" 1).1.currentSession = some s'
        ∧ s'.current_question_index = (freshSession "d").current_question_index + 1
        ∧ s'.attempted_in_session = (freshSession "d").attempted_in_session + 1
        ∧ ((freshSession "d").current_question_index
              = (freshSession "d").attempted_in_session →
            s'.current_question_index = s'.attempted_in_session) :=
  c3_index_attempt_invariant "d" userWithFreshSession qdbLower "a" 1
    (freshSession "d") qLower rfl rfl rfl (by decide)

/-- Claim C4, counterexample: for a department that is inactive and has
zero questions (and is therefore excluded from the main menu),
`start_quiz` does NOT fail and does NOT leave the session state alone: it
unconditionally writes a fresh active session for that department.  There
is no `InvalidDepartment` check anywhere in `start_quiz`. -/
theorem c4_counterexample :
    show_main_menu_depts inactiveDeps = []
    ∧ (start_quiz newUserData "d").currentSession = some (freshSession "d")
    ∧ (freshSession "d").sessionActive = true := by
  decide

/-- Claim C4, amended: `start_quiz` performs no department validation — for
every user and department id it overwrites the session with a fresh active
session; inactive or empty departments are filtered out only at the
main-menu keyboard, whose entries always come from active departments with
at least one question. -/
theorem c4_start_quiz_unvalidated (u : User) (d : String)
    (deps : List (String × Department)) (dId : String)
    (h : dId ∈ show_main_menu_depts deps) :
    (start_quiz u d).currentSession = some (freshSession d)
    ∧ (freshSession d).sessionActive = true
    ∧ ∃ dep, (dId, dep) ∈ deps ∧ dep.isActive = true ∧ 0 < dep.totalQuestions := by
  refine ⟨rfl, rfl, ?_⟩
  simp only [show_main_menu_depts, List.mem_map, List.mem_filter] at h
  obtain ⟨p, ⟨hmem, hcond⟩, hfst⟩ := h
  rw [Bool.and_eq_true, decide_eq_true_iff] at hcond
  exact ⟨p.2, by rw [← hfst]; exact hmem, hcond.1, hcond.2⟩

/-- Claim C4, witness for the amended theorem at a concrete input. -/
theorem c4_start_quiz_unvalidated_witness :
    (start_quiz newUserData "e").currentSession = some (freshSession "e")
    ∧ (freshSession "e").sessionActive = true
    ∧ ∃ dep, ("e", dep) ∈ activeDeps ∧ dep.isActive = true ∧ 0 < dep.totalQuestions :=
  c4_start_quiz_unvalidated newUserData "e" activeDeps "e" (by decide)

/-- Claim C5, counterexample: the stored answer key "A" and the submitted
choice "a" are equal under case normalisation, yet the code grades the
submission as INCORRECT (`selected_opt == q_data['answer']` at bot.py line
484 is exact string comparison) and does not increment `totalCorrect`. -/
theorem c5_counterexample :
    caseNormEq "a" "A" = true
    ∧ (handle_answer userWithFreshSession qdbUpperKey "a" 1).2
        = AnswerResult.accepted false
    ∧ (handle_answer userWithFreshSession qdbUpperKey "a" 1).1.totalCorrect
        = userWithFreshSession.totalCorrect := by
  decide

/-- Claim C5, amended: an accepted submission is counted correct if and
only if the submitted option letter is EXACTLY equal (case-sensitively) to
the stored answer key; `totalCorrect` and `correct_in_session` are
incremented exactly when that exact comparison holds. -/
theorem c5_exact_case_sensitive_grading (u : User)
    (qdb : List (String × List Question)) (sel : String) (n : Nat)
    (s : Session) (q : Question)
    (hs : u.currentSession = some s) (ha : s.sessionActive = true)
    (hn : s.current_question_index + 1 = n)
    (hq : fetchQuestion qdb s.department_id n = some q) :
    (handle_answer u qdb sel n).2 = AnswerResult.accepted (decide (sel = q.answer))
    ∧ (handle_answer u qdb sel n).1.totalCorrect
        = (if sel = q.answer then u.totalCorrect + 1 else u.totalCorrect)
    ∧ ∃ s', (handle_answer u qdb sel n).1.currentSession = some s'
        ∧ s'.correct_in_session
            = (if sel = q.answer then s.correct_in_session + 1
               else s.correct_in_session) := by
  rw [handle_answer_accepted u qdb sel n s q hs ha hn hq]
  exact ⟨rfl, rfl, _, rfl, rfl⟩

/-- Claim C5, witness for the amended theorem at a concrete input. -/
theorem c5_exact_case_sensitive_grading_witness :
    (handle_answer userWithFreshSession qdbLower "a" 1).2
        = AnswerResult.accepted (decide ("a" = qLower.answer))
    ∧ (handle_answer userWithFreshSession qdbLower "a" 1).1.totalCorrect
        = (if "a" = qLower.answer then userWithFreshSession.totalCorrect + 1
           else userWithFreshSession.totalCorrect)
    ∧ ∃ s', (handle_answer userWithFreshSession qdbLower "a" 1).1.currentSession = some s'
        ∧ s'.correct_in_session
            = (if "a" = qLower.answer then (freshSession "d").correct_in_session + 1
               else (freshSession "d").correct_in_session) :=
  c5_exact_case_sensitive_grading userWithFreshSession qdbLower "a" 1
    (freshSession "d") qLower rfl rfl rfl (by decide)

/-- Claim C6: the pipeline emits `locked` exactly when
`current_question_index = 25` and the department is not unlocked for the
user; in that state it emits the lock notice with the department-scoped
referral link (never a question); for every index below 25 with the next
question present it serves a question regardless of lock state; and at any
other index (in particular index > 25 for an unlocked user) it falls
through without locking. -/
theorem c6_delivery_lock_gate (uid : String) (unl : List (String × Bool))
    (ads : List Ad) (qdb : List (String × List Question)) (s : Session) :
    (isLockedOutcome (send_question uid unl ads qdb s).2 = true ↔
      (s.current_question_index = 25 ∧ lookupD unl s.department_id false = false))
    ∧ (s.current_question_index = 25 → lookupD unl s.department_id false = false →
        send_question uid unl ads qdb s
          = (s, DeliveryOutcome.locked (refLinkParam uid s.department_id)))
    ∧ (∀ q, s.current_question_index < 25 →
        fetchQuestion qdb s.department_id (s.current_question_index + 1) = some q →
        isQuestionOutcome (send_question uid unl ads qdb s).2 = true) := by
  refine ⟨?_, ?_, ?_⟩
  · by_cases hc : s.current_question_index = 25
        ∧ lookupD unl s.department_id false = false
    · simp [send_question, hc, isLockedOutcome]
    · rw [send_question_unlockedEq uid unl ads qdb s hc]
      by_cases h100 : 100 ≤ s.current_question_index
      · simp [h100, isLockedOutcome, hc]
      · simp [h100, send_question_step_not_locked, hc]
  · intro h25 hlock
    simp [send_question, h25, hlock]
  · intro q hlt hq
    have hc : ¬ (s.current_question_index = 25
        ∧ lookupD unl s.department_id false = false) := by
      intro h
      exact absurd h.1 (by omega)
    rw [send_question_unlockedEq uid unl ads qdb s hc]
    have h100 : ¬ 100 ≤ s.current_question_index := by omega
    simp [h100, send_question_step_question ads qdb s q hq]

/-- Claim C6, witness at concrete inputs: at index 25 with the department
locked the pipeline emits the lock notice with the referral link; at index
0 it serves the question. -/
theorem c6_delivery_lock_gate_witness :
    send_question "u" [] [] qdbLower sessionAt25
      = (sessionAt25, DeliveryOutcome.locked (refLinkParam "u" "d"))
    ∧ isQuestionOutcome (send_question "u" [] [] qdbLower (freshSession "d")).2 = true :=
  ⟨(c6_delivery_lock_gate "u" [] [] qdbLower sessionAt25).2.1 rfl rfl,
   (c6_delivery_lock_gate "u" [] [] qdbLower (freshSession "d")).2.2 qLower
     (by decide) (by decide)⟩

/-- Claim C7: `get_ad_to_show` returns `activeAds[k mod len(activeAds)]`
where `activeAds` is the isActive-filtered list ordered ascending by
`order_index`; it is periodic with period `len(activeAds)` when that list
is non-empty; it returns `none` when no active ad exists, in which case the
delivery pipeline skips the ad break, leaves `ad_break_counter` unchanged
and proceeds straight to the question. -/
theorem c7_ad_rotation (ads : List Ad) (k : Nat) :
    (get_ad_to_show ads k
        = (activeAdsSorted ads)[k % (activeAdsSorted ads).length]?)
    ∧ (activeAdsSorted ads ≠ [] →
        get_ad_to_show ads k = get_ad_to_show ads (k + (activeAdsSorted ads).length))
    ∧ (activeAdsSorted ads = [] → get_ad_to_show ads k = none)
    ∧ (∀ uid unl qdb s q, activeAdsSorted ads = [] →
        s.current_question_index ≠ 25 → s.current_question_index < 100 →
        fetchQuestion qdb s.department_id (s.current_question_index + 1) = some q →
        send_question uid unl ads qdb s = (s, DeliveryOutcome.question q)) := by
  have hbase : ∀ j, get_ad_to_show ads j
      = (activeAdsSorted ads)[j % (activeAdsSorted ads).length]? := by
    intro j
    by_cases he : (activeAdsSorted ads).isEmpty
    · rw [List.isEmpty_iff] at he
      simp [get_ad_to_show, he]
    · simp [get_ad_to_show, he]
  refine ⟨hbase k, ?_, ?_, ?_⟩
  · intro _
    rw [hbase k, hbase (k + (activeAdsSorted ads).length), Nat.add_mod_right]
  · intro h
    simp [get_ad_to_show, h]
  · intro uid unl qdb s q hempty h25 h100 hq
    have hc : ¬ (s.current_question_index = 25
        ∧ lookupD unl s.department_id false = false) := fun h => h25 h.1
    rw [send_question_unlockedEq uid unl ads qdb s hc, if_neg (by omega)]
    have hstep : adStep ads s = (s, none) := adStep_no_ads ads s hempty
    simp [send_question_step, hq, hstep]

/-- Claim C7, witness at concrete inputs. -/
theorem c7_ad_rotation_witness :
    (get_ad_to_show sampleAds 1
        = (activeAdsSorted sampleAds)[1 % (activeAdsSorted sampleAds).length]?)
    ∧ (get_ad_to_show sampleAds 1
        = get_ad_to_show sampleAds (1 + (activeAdsSorted sampleAds).length))
    ∧ (get_ad_to_show [adOff] 0 = none)
    ∧ send_question "u" [] [adOff] qdbSix sessionAt5
        = (sessionAt5, DeliveryOutcome.question qSix) :=
  ⟨(c7_ad_rotation sampleAds 1).1,
   (c7_ad_rotation sampleAds 1).2.1 (by decide),
   (c7_ad_rotation [adOff] 0).2.2.1 (by decide),
   (c7_ad_rotation [adOff] 0).2.2.2 "u" [] qdbSix sessionAt5 qSix
     (by decide) (by decide) (by decide) (by decide)⟩

/-- Claim C8 (code bug, evaluated at the failing input): for a session in
department "d" at index 3 where the department has no question numbered 4,
`send_question` signals `notFound` — but the session is returned EXACTLY as
it was: `sessionActive` stays `true`.  The code (bot.py lines 406-410) only
sends "Error: Question not found. Ending session." and shows the menu; it
never writes `currentSession.sessionActive = False`, contradicting its own
message and the claimed defensive termination. -/
theorem c8_notfound_session_stays_active :
    (send_question "u" [] [] qdbLower sessionAt3).2 = DeliveryOutcome.notFound
    ∧ (send_question "u" [] [] qdbLower sessionAt3).1 = sessionAt3
    ∧ sessionAt3.sessionActive = true := by
  decide

/-- Claim C9, counterexample: after the pause/exit operation the session is
NOT marked inactive — `sessionActive` is still `true` — because the
`home_exit` branch performs no write at all. -/
theorem c9_counterexample :
    (home_exit userWithFreshSession).1.currentSession = some (freshSession "d")
    ∧ (freshSession "d").sessionActive = true := by
  decide

/-- Claim C9, amended: the pause/exit operation leaves the entire user
record — the session and every one of its fields, including
`sessionActive` — unchanged; the session data therefore survives for a
future resume, but the session is never marked inactive. -/
theorem c9_pause_leaves_user_unchanged (u : User) : (home_exit u).1 = u := by
  cases h : u.currentSession <;> simp [home_exit, h]

/-- Claim C10: a referral from a well-formed deep link is recorded — one
`Referral` appended and the inviter's `referral_counts[department]`
incremented by one — exactly when the invited user had no user record at
`/start` time; when the invited user already exists, the create-or-get step
changes nothing: no `Referral` record, no counter change, no unlock
check. -/
theorem c10_referral_only_for_new_users (st : Store) (uid : String) :
    (∀ ro rd u0, lookup? st.users uid = some u0 →
        start_create_step st uid ro rd = (st, false, false))
    ∧ (∀ r d, lookup? st.users uid = none → r ≠ "" → r ≠ uid → d ≠ "" →
        (start_create_step st uid (some r) (some d)).1.referrals
            = st.referrals ++ [{ inviter_id := r, invited_id := uid, dept_id := d }]
        ∧ referralCount (start_create_step st uid (some r) (some d)).1 r d
            = referralCount st r d + 1
        ∧ (start_create_step st uid (some r) (some d)).2.1 = true) := by
  constructor
  · intro ro rd u0 h
    simp [start_create_step, h]
  · intro r d h h1 h2 h3
    simp only [start_create_step, h]
    exact ⟨create_user_referrals st uid r d h1 h2 h3,
      create_user_inviter_count st uid r d h1 h2 h3,
      create_user_recorded st uid r d h1 h2 h3⟩

/-- Claim C10, witness at concrete inputs: an existing user's click changes
nothing; a new user's click appends the referral record. -/
theorem c10_referral_only_for_new_users_witness :
    start_create_step existingUserStore "i0" (some "x") (some "d")
      = (existingUserStore, false, false)
    ∧ (start_create_step emptyStore "u1" (some "i") (some "d")).1.referrals
        = emptyStore.referrals
            ++ [{ inviter_id := "i", invited_id := "u1", dept_id := "d" }] :=
  ⟨(c10_referral_only_for_new_users existingUserStore "i0").1
      (some "x") (some "d") newUserData rfl,
   ((c10_referral_only_for_new_users emptyStore "u1").2 "i" "d" rfl
      (by decide) (by decide) (by decide)).1⟩
